import Mathlib

/-!
Verification of the TQs experiment driver (`experiments.py`).

The Python source is shallowly embedded below: the six SQL query
generators become pure `String`-valued functions, the `postgres` shell
wrapper becomes a function from captured output to an outcome, the
measurement loop of `run_query_experiment` becomes an explicit
recursion fed by an oracle of run results, and the administrative
actions issued by `run_experiments` become an explicit action trace.
Python's stable `list.sort(key=...)` is modelled by a stable insertion
sort (`pySort`), and durations are modelled as rationals.
-/

/-! ## String utilities -/

/-- Python's `sep.join(parts)`: the parts interleaved with the separator. -/
def joinSep (sep : String) : List String → String
  | [] => ""
  | [x] => x
  | x :: y :: xs => x ++ sep ++ joinSep sep (y :: xs)

/-- Concatenation of a list of strings (Python's `''.join`). -/
def strJoin : List String → String
  | [] => ""
  | x :: xs => x ++ strJoin xs

/-- The string ends with the SQL statement separator. -/
def endsWithSemicolon (s : String) : Prop :=
  s.data.getLast? = some ';'

instance (s : String) : Decidable (endsWithSemicolon s) := by
  unfold endsWithSemicolon
  infer_instance

theorem semicolon_data : (";" : String).data = [';'] := rfl

theorem endsWithSemicolon_concat (a : String) : endsWithSemicolon (a ++ ";") := by
  show ((a ++ ";").data).getLast? = some ';'
  rw [String.data_append, semicolon_data]
  exact List.getLast?_concat a.data

theorem endsWithSemicolon_append (a b : String) (h : endsWithSemicolon b) :
    endsWithSemicolon (a ++ b) := by
  have hb : b.data ≠ [] := by
    intro hnil
    unfold endsWithSemicolon at h
    rw [hnil] at h
    simp at h
  show ((a ++ b).data).getLast? = some ';'
  rw [String.data_append, List.getLast?_append_of_ne_nil a.data hb]
  exact h

/-- Python's substring test `pat in s`, on character lists. -/
def containsSub (pat : List Char) : List Char → Bool
  | [] => pat.isEmpty
  | c :: rest => pat.isPrefixOf (c :: rest) || containsSub pat rest

/-- Python's substring test `pat in s` on strings. -/
def strContains (s pat : String) : Bool :=
  containsSub pat.data s.data

/-! ## The `postgres` shell-command wrapper (src/experiments.py, lines 288-311) -/

/-- The statement-timeout cancellation message, verbatim from the source. -/
def PSQL_TIMEOUT_MSG : String :=
  "ERROR:  canceling statement due to statement timeout"

/-- Outcome of the `postgres` wrapper: either the process halts (prints the
diagnostic output and calls `exit(1)`), or the captured output is returned. -/
inductive PgOutcome
  | halted (diagnostic : String)
  | ok (output : String)
deriving DecidableEq

/-- Embedding of `postgres(command, **params)`: the captured combined output of
the shell command is scanned; if the timeout-cancellation message is absent and
an `ERROR:` or `FATAL:` marker is present, the process halts unless
`ignore_errors` was requested; otherwise the output is returned. -/
def postgres (output : String) (ignore_errors : Bool) : PgOutcome :=
  if !(strContains output PSQL_TIMEOUT_MSG)
      && (strContains output ("ERROR:") || strContains output ("FATAL:")) then
    if !ignore_errors then PgOutcome.halted output else PgOutcome.ok output
  else PgOutcome.ok output

/-- A captured output holding a fatal marker that is not the timeout message,
together with the timeout-cancellation message elsewhere in the same output. -/
def mixed_error_output : String :=
  "FATAL:  database system is starting up\n" ++ PSQL_TIMEOUT_MSG ++ "\n"

/-- Claim C3, counterexample: on an output that contains a `FATAL:` marker
distinct from the timeout-cancellation message but also contains the
timeout-cancellation message elsewhere, `postgres` does not halt (with
error-ignoring not requested): the timeout message anywhere in the output
suppresses the halt. -/
theorem postgres_no_halt_on_mixed_output :
    postgres mixed_error_output false = PgOutcome.ok mixed_error_output := by
  rfl

/-- Claim C3, amended: `postgres` halts exactly when the captured output does
not contain the timeout-cancellation message anywhere, contains an `ERROR:` or
`FATAL:` marker, and error-ignoring is not requested. In particular a non-timeout
error marker does not cause a halt when the timeout-cancellation message also
occurs elsewhere in the same output. -/
theorem postgres_halting_rule (output : String) (ignore_errors : Bool) :
    postgres output ignore_errors = PgOutcome.halted output ↔
      (strContains output PSQL_TIMEOUT_MSG = false
        ∧ (strContains output ("ERROR:") = true ∨ strContains output ("FATAL:") = true)
        ∧ ignore_errors = false) := by
  unfold postgres
  cases h1 : strContains output PSQL_TIMEOUT_MSG <;>
    cases h2 : strContains output ("ERROR:") <;>
      cases h3 : strContains output ("FATAL:") <;>
        cases ignore_errors <;> simp

/-! ## Query generators (src/experiments.py, lines 339-572)

Each Python function builds the SQL text by successive `+=` on a local
string; the loops become `List.foldl` over the same index ranges, and
`'%i'` interpolation becomes `toString`. -/

/-- The comma/AND-separated loops of the naive generators: append `item i` for
`i` in `range n`, appending `sep` after every item except the last
(the source guards the separator with `i < n - 1`). -/
def sepFold (item : Nat → String) (sep : String) (n : Nat) (init : String) : String :=
  (List.range n).foldl (fun q i => q ++ item i ++ (if i < n - 1 then sep else "")) init

/-- TQ1 naive (`prep_path_naiv_query`). -/
def prep_path_naiv_query (length threshold : Nat) : String :=
  let query := "SELECT DISTINCT R0.A, R" ++ toString (length - 1) ++ ".B\n"
  let query := query ++ "FROM "
  let query := sepFold (fun i => "R AS R" ++ toString i) (", ") length query
  let query := query ++ "\n"
  let query := query ++ "WHERE "
  let query := sepFold
    (fun i => "R" ++ toString i ++ ".B = R" ++ toString (i + 1) ++ ".A") (" AND ")
    (length - 1) query
  let query := query ++ "\n"
  let query := query ++ ("LIMIT " ++ toString threshold ++ ";")
  query

/-- TQ2 naive (`prep_neig_naiv_query`). -/
def prep_neig_naiv_query (length threshold : Nat) : String :=
  let query := "SELECT R0.A\n"
  let query := query ++ "FROM "
  let query := sepFold (fun i => "R AS R" ++ toString i) (", ") length query
  let query := query ++ "\n"
  let query := query ++ "WHERE "
  let query := sepFold
    (fun i => "R" ++ toString i ++ ".B = R" ++ toString (i + 1) ++ ".A") (" AND ")
    (length - 1) query
  let query := query ++ "\n"
  let query := query ++ "GROUP BY R0.A\n"
  let query := query ++
    ("HAVING COUNT(DISTINCT R" ++ toString (length - 1) ++ ".B) >= " ++ toString threshold ++ ";")
  query

/-- TQ3 naive (`prep_conn_naiv_query`). -/
def prep_conn_naiv_query (length threshold : Nat) : String :=
  let query := "SELECT SUB.X0, SUB.X" ++ toString length ++ "\n"
  let query := query ++ "FROM (\n"
  let query := query ++ "   SELECT DISTINCT R0.A AS X0"
  let query := (List.range length).foldl
    (fun q i => q ++ (", R" ++ toString i ++ ".B AS X" ++ toString (i + 1))) query
  let query := query ++ "\n"
  let query := query ++ "   FROM "
  let query := sepFold (fun i => "R AS R" ++ toString i) (", ") length query
  let query := query ++ "\n"
  let query := query ++ "   WHERE "
  let query := sepFold
    (fun i => "R" ++ toString i ++ ".B = R" ++ toString (i + 1) ++ ".A") (" AND ")
    (length - 1) query
  let query := query ++ "\n"
  let query := query ++ ") AS SUB \n"
  let query := query ++ ("GROUP BY SUB.X0, SUB.X" ++ toString length ++ "\n")
  let query := query ++ ("HAVING COUNT(*) >= " ++ toString threshold ++ ";")
  query

/-- One iteration of the loop of `prep_path_wind_query_backward`, at stage `j`. -/
def pathWindBackBody (length threshold : Nat) (query : String) (j : Nat) : String :=
  let query := query ++ ("J" ++ toString j ++ " AS ")
  let query :=
    if j = length then
      query ++ ("(SELECT DISTINCT A AS X" ++ toString (j - 1) ++ ", B AS X"
        ++ toString j ++ " FROM R),\n")
    else
      let query := query ++ ("(SELECT DISTINCT R.A AS X" ++ toString (j - 1)
        ++ ", X" ++ toString length ++ " \n")
      let query := query ++ ("       FROM R, S" ++ toString (j + 1) ++ " \n")
      query ++ ("       WHERE R.B = S" ++ toString (j + 1) ++ ".X" ++ toString j ++ "),\n")
  let query := query ++ ("W" ++ toString j ++ " AS ")
  let query := query ++ ("(SELECT X" ++ toString (j - 1) ++ ", X" ++ toString length
    ++ ", ROW_NUMBER() OVER (PARTITION BY X" ++ toString (j - 1) ++ ") AS RK FROM J"
    ++ toString j ++ "),\n")
  let query := query ++ ("S" ++ toString j ++ " AS ")
  let query := query ++ ("(SELECT X" ++ toString (j - 1) ++ ", X" ++ toString length
    ++ " FROM W" ++ toString j ++ " WHERE RK <= " ++ toString threshold ++ ")")
  let query := if j > 1 then query ++ "," else query
  query ++ "\n"

/-- TQ1 windowed, joining backward (`prep_path_wind_query_backward`); the loop
runs over `reversed(range(1, length + 1))`. -/
def prep_path_wind_query_backward (length threshold : Nat) : String :=
  let query := "WITH\n"
  let query := ((List.range' 1 length).reverse).foldl (pathWindBackBody length threshold) query
  query ++ ("SELECT X0, X" ++ toString length ++ " FROM S1 LIMIT " ++ toString threshold ++ ";")

/-- One iteration of the loop of `prep_neig_wind_query_backward`, at stage `j`. -/
def neigWindBackBody (length threshold : Nat) (query : String) (j : Nat) : String :=
  let query := query ++ ("J" ++ toString j ++ " AS ")
  let query :=
    if j = length then
      query ++ ("(SELECT DISTINCT A AS X" ++ toString (j - 1) ++ ", B AS X"
        ++ toString j ++ " FROM R),\n")
    else
      let query := query ++ ("(SELECT DISTINCT R.A AS X" ++ toString (j - 1)
        ++ ", X" ++ toString length ++ " \n")
      let query := query ++ ("       FROM R, S" ++ toString (j + 1) ++ " \n")
      query ++ ("       WHERE R.B = S" ++ toString (j + 1) ++ ".X" ++ toString j ++ "),\n")
  let query := query ++ ("W" ++ toString j ++ " AS ")
  let query := query ++ ("(SELECT X" ++ toString (j - 1) ++ ", X" ++ toString length
    ++ ", ROW_NUMBER() OVER (PARTITION BY X" ++ toString (j - 1) ++ ") AS RK FROM J"
    ++ toString j ++ "),\n")
  let query := query ++ ("S" ++ toString j ++ " AS ")
  query ++ ("(SELECT X" ++ toString (j - 1) ++ ", X" ++ toString length
    ++ " FROM W" ++ toString j ++ " WHERE RK <= " ++ toString threshold ++ "),\n")

/-- TQ2 windowed, joining backward (`prep_neig_wind_query_backward`). -/
def prep_neig_wind_query_backward (length threshold : Nat) : String :=
  let query := "WITH\n"
  let query := ((List.range' 1 length).reverse).foldl (neigWindBackBody length threshold) query
  let query := query ++ "C AS (SELECT X0, COUNT(*) CNT FROM S1 GROUP BY X0),\n"
  let query := query ++ ("S AS (SELECT X0 FROM C WHERE CNT >= " ++ toString threshold ++ ")\n")
  query ++ "SELECT X0 FROM S;"

/-- One iteration of the loop of `prep_conn_wind_query_forward`, at stage `j`;
the source's list comprehensions joined with `''.join`/`', '.join` become
mapped ranges under `joinSep`. -/
def connWindFwdBody (length threshold : Nat) (query : String) (j : Nat) : String :=
  let query := query ++ ("J" ++ toString j ++ " AS ")
  let query := query ++ "(SELECT DISTINCT "
  let query := query ++ joinSep ("")
    ((List.range j).map (fun i => "S" ++ toString (j - 1) ++ ".X" ++ toString i ++ ", "))
  let query := query ++ ("R.B AS X" ++ toString j ++ " ")
  let query := query ++ "\n"
  let query := query ++ ("       FROM S" ++ toString (j - 1) ++ ", R\n")
  let query := query ++ ("       WHERE S" ++ toString (j - 1) ++ ".X" ++ toString (j - 1)
    ++ " = R.A),\n")
  let query := query ++ ("W" ++ toString j ++ " AS ")
  let query := query ++ "(SELECT "
  let query := query ++ joinSep ("")
    ((List.range (j + 1)).map (fun i => "X" ++ toString i ++ ", "))
  let query := query ++ ("ROW_NUMBER() OVER (PARTITION BY X0, X" ++ toString j ++ ") AS RK ")
  let query := query ++ ("FROM J" ++ toString j ++ "),\n")
  let query := query ++ ("S" ++ toString j ++ " AS ")
  let query := query ++ "(SELECT "
  let query := query ++
    (joinSep (", ") ((List.range (j + 1)).map (fun i => "X" ++ toString i)) ++ " ")
  let query := query ++ ("FROM W" ++ toString j ++ " WHERE RK <= " ++ toString threshold ++ ")")
  let query := if j < length then query ++ "," else query
  query ++ "\n"

/-- TQ3 windowed, joining forward (`prep_conn_wind_query_forward`); the loop
runs over `range(2, length + 1)`. -/
def prep_conn_wind_query_forward (length threshold : Nat) : String :=
  let query := "WITH\n"
  let query := query ++ "S1 AS "
  let query := query ++ "(SELECT DISTINCT A AS X0, B AS X1 FROM R),\n"
  let query := (List.range' 2 (length - 1)).foldl (connWindFwdBody length threshold) query
  query ++ ("SELECT X0, X" ++ toString length ++ " FROM S" ++ toString length
    ++ " GROUP BY X0, X" ++ toString length ++ " HAVING COUNT(*)>=" ++ toString threshold)

/-- The constructor table `query_constructors`, keyed by class then method. -/
def query_constructors : List (String × List (String × (Nat → Nat → String))) :=
  [(("TQ1"), [(("naive"), prep_path_naiv_query), (("windowed"), prep_path_wind_query_backward)]),
   (("TQ2"), [(("naive"), prep_neig_naiv_query), (("windowed"), prep_neig_wind_query_backward)]),
   (("TQ3"), [(("naive"), prep_conn_naiv_query), (("windowed"), prep_conn_wind_query_forward)])]

/-- The dictionary lookup `query_constructors[kind][method]`. -/
def lookup_constructor (kind method : String) : Option (Nat → Nat → String) :=
  (query_constructors.lookup kind).bind (fun tbl => tbl.lookup method)

/-! ## Claim C6: statement termination -/

theorem prep_path_naiv_query_ends (length threshold : Nat) :
    endsWithSemicolon (prep_path_naiv_query length threshold) := by
  unfold prep_path_naiv_query
  exact endsWithSemicolon_append _ _ (endsWithSemicolon_concat _)

theorem prep_neig_naiv_query_ends (length threshold : Nat) :
    endsWithSemicolon (prep_neig_naiv_query length threshold) := by
  unfold prep_neig_naiv_query
  exact endsWithSemicolon_append _ _ (endsWithSemicolon_concat _)

theorem prep_conn_naiv_query_ends (length threshold : Nat) :
    endsWithSemicolon (prep_conn_naiv_query length threshold) := by
  unfold prep_conn_naiv_query
  exact endsWithSemicolon_append _ _ (endsWithSemicolon_concat _)

theorem prep_path_wind_query_backward_ends (length threshold : Nat) :
    endsWithSemicolon (prep_path_wind_query_backward length threshold) := by
  unfold prep_path_wind_query_backward
  exact endsWithSemicolon_append _ _ (endsWithSemicolon_concat _)

theorem prep_neig_wind_query_backward_ends (length threshold : Nat) :
    endsWithSemicolon (prep_neig_wind_query_backward length threshold) := by
  unfold prep_neig_wind_query_backward
  exact endsWithSemicolon_append _ _ (by decide)

/-- Claim C6, amended: for every `k ≥ 1` and positive threshold, the SQL text
produced by the generator selected in the constructor table is terminated by
the statement separator for the five combinations TQ1/naive, TQ1/windowed,
TQ2/naive, TQ2/windowed and TQ3/naive; the TQ3/windowed generator
(`prep_conn_wind_query_forward`) is the exception — its text is not
terminated (see the counterexample). -/
theorem constructor_queries_terminated (k t : Nat) (hk : 1 ≤ k) (ht : 1 ≤ t) :
    (lookup_constructor ("TQ1") ("naive") = some prep_path_naiv_query
      ∧ endsWithSemicolon (prep_path_naiv_query (k + 1) t))
    ∧ (lookup_constructor ("TQ1") ("windowed") = some prep_path_wind_query_backward
      ∧ endsWithSemicolon (prep_path_wind_query_backward (k + 1) t))
    ∧ (lookup_constructor ("TQ2") ("naive") = some prep_neig_naiv_query
      ∧ endsWithSemicolon (prep_neig_naiv_query (k + 1) t))
    ∧ (lookup_constructor ("TQ2") ("windowed") = some prep_neig_wind_query_backward
      ∧ endsWithSemicolon (prep_neig_wind_query_backward (k + 1) t))
    ∧ (lookup_constructor ("TQ3") ("naive") = some prep_conn_naiv_query
      ∧ endsWithSemicolon (prep_conn_naiv_query (k + 1) t)) :=
  ⟨⟨rfl, prep_path_naiv_query_ends _ _⟩,
   ⟨rfl, prep_path_wind_query_backward_ends _ _⟩,
   ⟨rfl, prep_neig_naiv_query_ends _ _⟩,
   ⟨rfl, prep_neig_wind_query_backward_ends _ _⟩,
   ⟨rfl, prep_conn_naiv_query_ends _ _⟩⟩

theorem constructor_queries_terminated_witness :
    endsWithSemicolon (prep_path_naiv_query (1 + 1) 1)
    ∧ endsWithSemicolon (prep_path_wind_query_backward (1 + 1) 1)
    ∧ endsWithSemicolon (prep_neig_naiv_query (1 + 1) 1)
    ∧ endsWithSemicolon (prep_neig_wind_query_backward (1 + 1) 1)
    ∧ endsWithSemicolon (prep_conn_naiv_query (1 + 1) 1) :=
  ⟨(constructor_queries_terminated 1 1 (by decide) (by decide)).1.2,
   (constructor_queries_terminated 1 1 (by decide) (by decide)).2.1.2,
   (constructor_queries_terminated 1 1 (by decide) (by decide)).2.2.1.2,
   (constructor_queries_terminated 1 1 (by decide) (by decide)).2.2.2.1.2,
   (constructor_queries_terminated 1 1 (by decide) (by decide)).2.2.2.2.2⟩

/-- Claim C6, counterexample: the TQ3/windowed entry of the constructor table
is `prep_conn_wind_query_forward`, and at `k = 1`, threshold `1` (so length
`k + 1 = 2`) its output does not end with the statement separator. -/
theorem conn_windowed_not_terminated :
    lookup_constructor ("TQ3") ("windowed") = some prep_conn_wind_query_forward
    ∧ ¬ endsWithSemicolon (prep_conn_wind_query_forward (1 + 1) 1) :=
  ⟨rfl, by decide⟩

/-! ## Claim C7: determinism and statelessness of the generators -/

/-- State-passing embedding of a constructor call: the Python generator bodies
read only their two arguments and string literals, so threading an arbitrary
process state `s` through a call leaves it untouched and unconsulted. -/
def run_constructor_in_state (σ : Type) (kind method : String) (s : σ)
    (length threshold : Nat) : Option (String × σ) :=
  (lookup_constructor kind method).map (fun f => (f length threshold, s))

/-- Claim C7: every generator reachable from the constructor table is
deterministic and stateless: calls with identical `(length, threshold)`
arguments from two arbitrary process states (of arbitrary state types, hence
in particular in separate process runs) produce byte-identical SQL text, and
neither call changes its state. -/
theorem generators_deterministic_stateless (σ τ : Type) (s : σ) (u : τ)
    (kind method : String) (length threshold : Nat) (f : Nat → Nat → String)
    (h : lookup_constructor kind method = some f) :
    run_constructor_in_state σ kind method s length threshold
        = some (f length threshold, s)
    ∧ run_constructor_in_state τ kind method u length threshold
        = some (f length threshold, u) := by
  unfold run_constructor_in_state
  rw [h]
  exact ⟨rfl, rfl⟩

theorem generators_deterministic_stateless_witness :
    run_constructor_in_state Nat ("TQ1") ("naive") 42 2 10
        = some (prep_path_naiv_query 2 10, 42)
    ∧ run_constructor_in_state Bool ("TQ1") ("naive") true 2 10
        = some (prep_path_naiv_query 2 10, true) :=
  generators_deterministic_stateless Nat Bool 42 true ("TQ1") ("naive") 2 10
    prep_path_naiv_query rfl

/-! ## Measurement aggregation (`run_query_experiment`, src lines 645-662) -/

/-- A single run result: a duration in milliseconds or the TIMEOUT sentinel,
modelled as `none`. -/
abbrev RunResult := Option ℚ

/-- The sort key used by `run_query_experiment`
(`x if x != 'TIMEOUT' else float('inf')`): a duration is its own key and the
TIMEOUT sentinel is keyed as plus infinity. -/
def pykey : RunResult → WithTop ℚ
  | none => ⊤
  | some x => (x : WithTop ℚ)

/-- Boolean comparison of two run results induced by their sort keys. -/
def keyLe : RunResult → RunResult → Bool
  | _, none => true
  | none, some _ => false
  | some x, some y => decide (x ≤ y)

theorem keyLe_eq_pykey (a b : RunResult) : keyLe a b = decide (pykey a ≤ pykey b) := by
  cases a <;> cases b <;>
    simp [keyLe, pykey, WithTop.top_le_iff, WithTop.coe_le_coe]

/-- Stable insertion: the new element goes after every existing element `b`
with `le b a`, so ties keep their original order. -/
def pyInsert (le : α → α → Bool) (a : α) : List α → List α
  | [] => [a]
  | b :: l => if le b a then b :: pyInsert le a l else a :: b :: l

/-- Model of Python's stable `list.sort` under a comparison: left fold of
stable insertions. -/
def pySort (le : α → α → Bool) (l : List α) : List α :=
  l.foldl (fun acc x => pyInsert le x acc) []

/-- The measurement loop of `run_query_experiment`: `oracle c` is the result
of the `c`-th query run issued; up to `runs` results are collected, and the
loop breaks right after appending the first TIMEOUT when `hard_timeout` is
set. -/
def collectRuns (oracle : Nat → RunResult) (hard_timeout : Bool) :
    Nat → Nat → List RunResult
  | _, 0 => []
  | c, n + 1 =>
    let r := oracle c
    if r.isNone && hard_timeout then [r]
    else r :: collectRuns oracle hard_timeout (c + 1) n

/-- Embedding of `run_query_experiment`: collect the run results, sort them in
place by key (TIMEOUT as infinity), and return `results[len(results) // 2]`
(`none` exactly when no run was collected, where the source would raise an
IndexError). -/
def run_query_experiment (oracle : Nat → RunResult) (runs : Nat)
    (hard_timeout : Bool) : Option RunResult :=
  let results := collectRuns oracle hard_timeout 0 runs
  (pySort keyLe results).get? (results.length / 2)

/-- Following the spec's words: the value at the lower-median position of the
sorted result sequence — for even length the lower of the two middle
elements, index `(len - 1) / 2`. -/
def lowerMedian (results : List RunResult) : Option RunResult :=
  (pySort keyLe results).get? ((results.length - 1) / 2)

/-- The value at the upper-median position of the sorted result sequence —
index `len / 2`, for even length the upper of the two middle elements. -/
def upperMedian (results : List RunResult) : Option RunResult :=
  (pySort keyLe results).get? (results.length / 2)

/-- Four finite run results 1, 2, 3, 4 (milliseconds), in issue order. -/
def oracle_even : Nat → RunResult :=
  fun n => if n = 0 then some 1 else if n = 1 then some 2 else if n = 2 then some 3 else some 4

/-- Claim C2, counterexample: on the even-length collected results
[1, 2, 3, 4], `run_query_experiment` returns 3 — the element at index
`4 // 2 = 2` of the sorted sequence, the upper of the two middle elements —
while the lower-median element is 2. -/
theorem median_upper_not_lower :
    (collectRuns oracle_even false 0 4).length % 2 = 0
    ∧ run_query_experiment oracle_even 4 false = some (some 3)
    ∧ lowerMedian (collectRuns oracle_even false 0 4) = some (some 2)
    ∧ run_query_experiment oracle_even 4 false
        ≠ lowerMedian (collectRuns oracle_even false 0 4) :=
  ⟨by decide, by decide, by decide, by decide⟩

/-- Claim C2, amended: for every even-length (and nonempty) sequence of
collected run results, `run_query_experiment` returns the element at the
upper-median position of the sorted sequence (index `len // 2`, the upper of
the two middle elements) — not the lower-median element and not an average. -/
theorem run_query_experiment_upper_median (oracle : Nat → RunResult) (runs : Nat)
    (hard_timeout : Bool)
    (heven : (collectRuns oracle hard_timeout 0 runs).length % 2 = 0)
    (hne : (collectRuns oracle hard_timeout 0 runs).length ≠ 0) :
    run_query_experiment oracle runs hard_timeout
      = upperMedian (collectRuns oracle hard_timeout 0 runs) := rfl

theorem run_query_experiment_upper_median_witness :
    (collectRuns oracle_even false 0 4).length % 2 = 0
    ∧ run_query_experiment oracle_even 4 false
        = upperMedian (collectRuns oracle_even false 0 4) :=
  ⟨by decide, run_query_experiment_upper_median oracle_even 4 false (by decide) (by decide)⟩

theorem collectRuns_timeout_is_last (oracle : Nat → RunResult) :
    ∀ (runs c i : Nat), (collectRuns oracle true c runs).get? i = some none →
      i + 1 = (collectRuns oracle true c runs).length := by
  intro runs
  induction runs with
  | zero =>
    intro c i h
    simp [collectRuns] at h
  | succ n ih =>
    intro c i h
    rw [collectRuns] at h ⊢
    cases hr : oracle c with
    | none =>
      rw [hr] at h
      have hcond : (((none : RunResult).isNone) && true) = true := rfl
      rw [if_pos hcond] at h ⊢
      cases i with
      | zero => rfl
      | succ j => simp at h
    | some q =>
      rw [hr] at h
      rw [if_neg (by simp)] at h ⊢
      cases i with
      | zero => simp at h
      | succ j =>
        have h' : (collectRuns oracle true (c + 1) n).get? j = some none := by
          simpa using h
        have hj := ih (c + 1) j h'
        simp only [List.length_cons]
        omega

/-- Claim C4: with hard-timeout enabled, the measurement loop issues no
further query runs after the first TIMEOUT (a TIMEOUT can only be the last
collected result); in particular when the very first run is TIMEOUT, exactly
one run is collected and the returned summary value is TIMEOUT. -/
theorem run_query_experiment_hard_timeout (oracle : Nat → RunResult) (runs : Nat)
    (hruns : 1 ≤ runs) (hfirst : oracle 0 = none) :
    (∀ (g : Nat → RunResult) (n c i : Nat),
        (collectRuns g true c n).get? i = some none →
          i + 1 = (collectRuns g true c n).length)
    ∧ collectRuns oracle true 0 runs = [none]
    ∧ run_query_experiment oracle runs true = some none := by
  have hc : collectRuns oracle true 0 runs = [none] := by
    cases runs with
    | zero => omega
    | succ n =>
      rw [collectRuns, hfirst]
      simp
  refine ⟨fun g n c i h => collectRuns_timeout_is_last g n c i h, hc, ?_⟩
  unfold run_query_experiment
  rw [hc]
  rfl

/-- Every run is a TIMEOUT. -/
def oracle_timeout : Nat → RunResult := fun _ => none

theorem run_query_experiment_hard_timeout_witness :
    collectRuns oracle_timeout true 0 3 = [none]
    ∧ run_query_experiment oracle_timeout 3 true = some none :=
  ⟨(run_query_experiment_hard_timeout oracle_timeout 3 (by decide) rfl).2.1,
   (run_query_experiment_hard_timeout oracle_timeout 3 (by decide) rfl).2.2⟩

/-- The run results 120.5 ms, TIMEOUT, 95.0 ms, in issue order. -/
def oracle_mixed : Nat → RunResult :=
  fun n => if n = 0 then some (mkRat 241 2) else if n = 1 then none else some 95

/-- Claim C5: the comparison used to sort the collected results is exactly the
order of keys sending TIMEOUT to plus infinity; every finite duration is
strictly below the TIMEOUT key; and on the runs [120.5, TIMEOUT, 95.0] with
hard-timeout disabled the returned median is 120.5. -/
theorem timeout_sorted_as_infinity :
    (∀ a b : RunResult, keyLe a b = decide (pykey a ≤ pykey b))
    ∧ (∀ q : ℚ, pykey (some q) < pykey none)
    ∧ (mkRat 241 2 : ℚ) = 120.5
    ∧ collectRuns oracle_mixed false 0 3 = [some (mkRat 241 2), none, some 95]
    ∧ run_query_experiment oracle_mixed 3 false = some (some (mkRat 241 2)) :=
  ⟨keyLe_eq_pykey, fun q => WithTop.coe_lt_top q, by norm_num, by decide, by decide⟩

/-! ## Query descriptors and report column keys (src lines 574-582) -/

/-- Abstract query description: class, method, number of joins, threshold. -/
structure Query where
  kind : String
  method : String
  k : Nat
  threshold : Nat

/-- Embedding of `query_descr`: the format string `'%s-%s-K%i'` applied to the
kind, the first four characters of the method, and `k`. -/
def query_descr (query : Query) : String :=
  query.kind ++ "-" ++ (query.method.take 4) ++ "-K" ++ toString query.k

theorem dashK_data : ("-K" : String).data = ['-', 'K'] := rfl

theorem dash_data : ("-" : String).data = ['-'] := rfl

theorem kay_data : ("K" : String).data = ['K'] := rfl

/-- Claim C9: the report column key is the class tag, a dash, the first four
characters of the method name, a dash, and `K` followed by `k`; the key does
not depend on the threshold, so two descriptors differing only in the
threshold receive identical column keys. -/
theorem query_descr_format :
    (∀ q : Query,
      query_descr q = q.kind ++ "-" ++ q.method.take 4 ++ "-" ++ ("K" ++ toString q.k))
    ∧ (∀ q₁ q₂ : Query, q₁.kind = q₂.kind → q₁.method = q₂.method → q₁.k = q₂.k →
        query_descr q₁ = query_descr q₂) := by
  constructor
  · intro q
    apply String.ext
    simp [query_descr, String.data_append, dashK_data, dash_data, kay_data]
  · intro q₁ q₂ h1 h2 h3
    unfold query_descr
    rw [h1, h2, h3]

theorem query_descr_format_witness :
    query_descr ⟨("TQ1"), ("naive"), 3, 10⟩ = query_descr ⟨("TQ1"), ("naive"), 3, 99⟩ :=
  query_descr_format.2 ⟨("TQ1"), ("naive"), 3, 10⟩ ⟨("TQ1"), ("naive"), 3, 99⟩ rfl rfl rfl

/-! ## IMDB size calculation (src lines 160-191) -/

/-- A Python dictionary key of `imdb_size`: the string `'all'` or an integer
link-type identifier. -/
inductive PyKey
  | str (s : String)
  | int (n : Int)
deriving DecidableEq

/-- A Python value as used by `calc_imdb_size`: an integer, or a dictionary
from keys to integers. -/
inductive PyVal
  | int (n : Int)
  | dict (entries : List (PyKey × Int))
deriving DecidableEq

/-- A Python runtime error. -/
inductive PyErr
  | typeError
  | keyError
deriving DecidableEq

/-- The `imdb_size` dictionary literal: edge counts of the imdb link groups. -/
def imdb_size : PyVal :=
  PyVal.dict
    [(PyKey.str ("all"), 29997), (PyKey.int 5, 8593), (PyKey.int 6, 5503),
     (PyKey.int 9, 5186), (PyKey.int 13, 3341), (PyKey.int 10, 2223),
     (PyKey.int 1, 1158), (PyKey.int 2, 1157), (PyKey.int 8, 781),
     (PyKey.int 7, 625), (PyKey.int 16, 278), (PyKey.int 12, 247),
     (PyKey.int 15, 211), (PyKey.int 3, 207), (PyKey.int 11, 204),
     (PyKey.int 4, 199), (PyKey.int 17, 84)]

/-- Python call semantics on these values: neither an integer nor a dictionary
is callable — calling one raises `TypeError`. -/
def pyCall (f : PyVal) (arg : PyKey) : Except PyErr Int :=
  match f, arg with
  | PyVal.int _, _ => Except.error PyErr.typeError
  | PyVal.dict _, _ => Except.error PyErr.typeError

/-- Python subscript semantics `v[key]`. -/
def pySubscript (v : PyVal) (key : PyKey) : Except PyErr Int :=
  match v with
  | PyVal.int _ => Except.error PyErr.typeError
  | PyVal.dict entries =>
    match entries.lookup key with
    | some n => Except.ok n
    | none => Except.error PyErr.keyError

/-- Embedding of `calc_imdb_size`: when `link_types` is truthy (present and
non-empty), sum `imdb_size(t)` over its elements — a call of the `imdb_size`
dictionary, exactly as the source writes it; otherwise return
`imdb_size['all']`. `none` models an absent/`None` parameter. -/
def calc_imdb_size (link_types : Option (List Int)) : Except PyErr Int :=
  match link_types with
  | some (t :: ts) => do
    let vals ← (t :: ts).mapM (fun u => pyCall imdb_size (PyKey.int u))
    pure vals.sum
  | _ => pySubscript imdb_size (PyKey.str ("all"))

/-- Claim C10: for every non-empty `link_types` collection, `calc_imdb_size`
raises `TypeError`, because its sum applies the `imdb_size` dictionary as if
it were a function; when `link_types` is `None` or empty it returns the
`'all'` edge count 29997. -/
theorem calc_imdb_size_type_error :
    (∀ (t : Int) (ts : List Int),
      calc_imdb_size (some (t :: ts)) = Except.error PyErr.typeError)
    ∧ calc_imdb_size none = Except.ok 29997
    ∧ calc_imdb_size (some []) = Except.ok 29997 :=
  ⟨fun t ts => rfl, rfl, rfl⟩

/-! ## Administrative action trace of `run_experiments`
(src lines 318-333, 637-662, 716-743) -/

/-- An externally visible action issued through the `postgres` wrapper: the
three administrative commands of `load_data` (`dropdb --force --if-exists`,
`createdb`, `psql -f load-script`) and a query run (`psql -f query-script`)
with its parsed result. -/
inductive PgAction
  | dropdb
  | createdb
  | loadScript
  | queryRun (result : RunResult)
deriving DecidableEq

/-- The actions issued by `load_data`: force-drop, create, execute the load
script, in that order. -/
def load_data_trace : List PgAction :=
  [PgAction.dropdb, PgAction.createdb, PgAction.loadScript]

/-- Actions issued by `run_query_experiment` for one query: one `queryRun` per
collected run result, the oracle numbering continuing from `c`. -/
def query_experiment_trace (oracle : Nat → RunResult) (hard_timeout : Bool)
    (runs c : Nat) : List PgAction × Nat :=
  let rs := collectRuns oracle hard_timeout c runs
  (rs.map PgAction.queryRun, c + rs.length)

/-- Actions issued by `run_experiments` for one dataset: `prepare_data` (no
administrative command), `load_data`, then for each query `prepare_query` (no
administrative command) followed by the measurement runs. -/
def dataset_trace (oracle : Nat → RunResult) (hard_timeout : Bool)
    (runs : Nat) (queries : List Query) (c : Nat) : List PgAction × Nat :=
  queries.foldl
    (fun acc _q =>
      let step := query_experiment_trace oracle hard_timeout runs acc.2
      (acc.1 ++ step.1, step.2))
    (load_data_trace, c)

/-- The full administrative action trace of `run_experiments`: one dataset
block after another, threading the query-run counter. -/
def run_experiments_trace (oracle : Nat → RunResult) (hard_timeout : Bool)
    (runs : Nat) (datas : List Unit) (queries : List Query) : List PgAction × Nat :=
  datas.foldl
    (fun acc _d =>
      let step := dataset_trace oracle hard_timeout runs queries acc.2
      (acc.1 ++ step.1, step.2))
    ([], 0)

/-- The first issued query run times out; every later run takes 1 ms. -/
def oracle_first_timeout : Nat → RunResult :=
  fun n => if n = 0 then none else some 1

/-- First query of the batch. -/
def q1 : Query := ⟨("TQ1"), ("naive"), 1, 10⟩

/-- Second query of the batch. -/
def q2 : Query := ⟨("TQ1"), ("windowed"), 1, 10⟩

/-- Claim C1 (code bug): with one dataset, the two queries `q1, q2`, three
runs and hard timeout enabled, when the first run of `q1` returns TIMEOUT the
action trace of `run_experiments` is force-drop, create, load-script, the
TIMEOUT query run, and then immediately the runs of `q2`: the action directly
after the TIMEOUT run is another query run, with no force-drop, create or
script-execute issued in between. -/
theorem timeout_not_followed_by_recovery :
    (run_experiments_trace oracle_first_timeout true 3 [()] [q1, q2]).1
      = [PgAction.dropdb, PgAction.createdb, PgAction.loadScript,
         PgAction.queryRun none, PgAction.queryRun (some 1),
         PgAction.queryRun (some 1), PgAction.queryRun (some 1)]
    ∧ (run_experiments_trace oracle_first_timeout true 3 [()] [q1, q2]).1.get? 3
        = some (PgAction.queryRun none)
    ∧ (run_experiments_trace oracle_first_timeout true 3 [()] [q1, q2]).1.get? 4
        = some (PgAction.queryRun (some 1)) :=
  ⟨by decide, by decide, by decide⟩

/-! ## Claim C8: the shape of the PATH/NAIVE query -/

theorem joinSep_cons_ne_nil (sep a : String) (l : List String) (h : l ≠ []) :
    joinSep sep (a :: l) = a ++ sep ++ joinSep sep l := by
  cases l with
  | nil => exact absurd rfl h
  | cons b bs => rfl

theorem foldl_append_strJoin (g : Nat → String) :
    ∀ (l : List Nat) (init : String),
      l.foldl (fun q i => q ++ g i) init = init ++ strJoin (l.map g) := by
  intro l
  induction l with
  | nil =>
    intro init
    simp [strJoin, String.append_empty]
  | cons x xs ih =>
    intro init
    simp only [List.foldl_cons, List.map_cons, strJoin]
    rw [ih (init ++ g x), String.append_assoc]

theorem strJoin_sep_concat (sep : String) :
    ∀ (l : List String) (x : String),
      strJoin (l.map (fun s => s ++ sep)) ++ x = joinSep sep (l ++ [x]) := by
  intro l
  induction l with
  | nil =>
    intro x
    simp [strJoin, joinSep, String.empty_append]
  | cons a as ih =>
    intro x
    have hne : as ++ [x] ≠ [] := by simp
    calc strJoin ((a :: as).map (fun s => s ++ sep)) ++ x
        = ((a ++ sep) ++ strJoin (as.map (fun s => s ++ sep))) ++ x := by
          simp only [List.map_cons, strJoin]
      _ = (a ++ sep) ++ (strJoin (as.map (fun s => s ++ sep)) ++ x) := by
          rw [String.append_assoc]
      _ = (a ++ sep) ++ joinSep sep (as ++ [x]) := by rw [ih x]
      _ = joinSep sep ((a :: as) ++ [x]) := by
          rw [List.cons_append, joinSep_cons_ne_nil sep a (as ++ [x]) hne]

theorem sepFold_eq_joinSep (item : Nat → String) (sep : String) :
    ∀ (n : Nat) (init : String),
      sepFold item sep (n + 1) init
        = init ++ joinSep sep ((List.range (n + 1)).map item) := by
  intro n
  induction n with
  | zero =>
    intro init
    have h1 : List.range 1 = [0] := rfl
    show (List.range 1).foldl
        (fun q i => q ++ item i ++ (if i < 1 - 1 then sep else "")) init
      = init ++ joinSep sep ((List.range 1).map item)
    rw [h1]
    simp [joinSep, String.append_empty]
  | succ m ih =>
    intro init
    show (List.range (m + 2)).foldl
        (fun q i => q ++ item i ++ (if i < m + 2 - 1 then sep else "")) init
      = init ++ joinSep sep ((List.range (m + 2)).map item)
    rw [List.range_succ, List.foldl_append, List.map_append]
    simp only [List.map_cons, List.map_nil, List.foldl_cons, List.foldl_nil]
    rw [if_neg (by omega)]
    have hinner :
        (List.range (m + 1)).foldl
            (fun q i => q ++ item i ++ (if i < m + 2 - 1 then sep else "")) init
          = init ++ strJoin ((List.range (m + 1)).map (fun i => item i ++ sep)) := by
      rw [List.foldl_ext
            (fun q i => q ++ item i ++ (if i < m + 2 - 1 then sep else ""))
            (fun q i => q ++ (item i ++ sep)) init
            (fun q i hi => by
              show q ++ item i ++ (if i < m + 2 - 1 then sep else "") = q ++ (item i ++ sep)
              rw [if_pos (show i < m + 2 - 1 by simpa using List.mem_range.mp hi),
                String.append_assoc])]
      exact foldl_append_strJoin (fun i => item i ++ sep) (List.range (m + 1)) init
    rw [hinner, String.append_empty, String.append_assoc]
    have hmap : (List.range (m + 1)).map (fun i => item i ++ sep)
        = ((List.range (m + 1)).map item).map (fun s => s ++ sep) := by
      rw [List.map_map]
      rfl
    rw [hmap, strJoin_sep_concat sep ((List.range (m + 1)).map item) (item (m + 1))]

/-- The PATH/NAIVE query shape as the claim states it: a `k+1`-way self-join
chain of the edge relation, aliased `R0..Rk` and comma-separated, with `k`
chained equality conditions `Ri.B = R(i+1).A` joined by `AND`, selecting
`DISTINCT R0.A, Rk.B`, and ending with `LIMIT` at the threshold. -/
def path_naiv_spec (k t : Nat) : String :=
  "SELECT DISTINCT R0.A, R" ++ toString k ++ ".B\n"
    ++ "FROM "
    ++ joinSep (", ") ((List.range (k + 1)).map (fun i => "R AS R" ++ toString i))
    ++ "\n" ++ "WHERE "
    ++ joinSep (" AND ")
        ((List.range k).map (fun i => "R" ++ toString i ++ ".B = R" ++ toString (i + 1) ++ ".A"))
    ++ "\n" ++ ("LIMIT " ++ toString t ++ ";")

/-- Claim C8: for every `k ≥ 1` and every threshold, the PATH/NAIVE generator
applied to length `k + 1` produces exactly the query that joins `k + 1` copies
of `R` aliased `R0..Rk`, chains the `k` equality conditions
`Ri.B = R(i+1).A`, selects `DISTINCT R0.A, Rk.B`, and ends with `LIMIT`
at the threshold. -/
theorem prep_path_naiv_query_shape (k t : Nat) (hk : 1 ≤ k) :
    prep_path_naiv_query (k + 1) t = path_naiv_spec k t := by
  obtain ⟨j, rfl⟩ : ∃ j, k = j + 1 := ⟨k - 1, by omega⟩
  simp only [prep_path_naiv_query, path_naiv_spec, Nat.add_sub_cancel]
  rw [sepFold_eq_joinSep, sepFold_eq_joinSep]

theorem prep_path_naiv_query_shape_witness :
    prep_path_naiv_query (1 + 1) 7 = path_naiv_spec 1 7 :=
  prep_path_naiv_query_shape 1 7 (by decide)
